import Mathlib

/-!
Verification development for the sona audio plugin host.

The definitions below are a shallow embedding of the Rust sources:
`crates/audio/src/lib.rs` (format picker, planar buffer, audio engine,
capture callback) and `src-tauri/src/{settings,plugins}.rs` (settings
start-up, plugin-path registry).  Pure functions become Lean functions;
`&mut self` methods become explicit state passing; `Result` values that
carry the mutated receiver are modelled by a result type holding the
engine; `unwrap` on an error value is modelled as a distinguished
`panicked` outcome.
-/

namespace Sona

/-! ## Sample formats and stream configurations (cpal types)

The spec's data model restricts device sample formats to
{I8, U8, I16, U16, I32, U32, F32}; the picker's catch-all `continue`
arm is unreachable over this universe and is therefore omitted. -/

inductive SampleFormat where
  | I8 | U8 | I16 | U16 | I32 | U32 | F32
deriving DecidableEq, Repr

inductive SupportedBufferSize where
  | range (min max : Nat)
  | unknown
deriving DecidableEq, Repr

structure SupportedStreamConfigRange where
  channels : Nat
  min_sample_rate : Nat
  max_sample_rate : Nat
  buffer_size : SupportedBufferSize
  sample_format : SampleFormat
deriving DecidableEq, Repr

structure SupportedStreamConfig where
  channels : Nat
  sample_rate : Nat
  buffer_size : SupportedBufferSize
  sample_format : SampleFormat
deriving DecidableEq, Repr

def SupportedStreamConfigRange.with_sample_rate
    (c : SupportedStreamConfigRange) (r : Nat) : SupportedStreamConfig :=
  { channels := c.channels, sample_rate := r,
    buffer_size := c.buffer_size, sample_format := c.sample_format }

def SupportedStreamConfigRange.with_max_sample_rate
    (c : SupportedStreamConfigRange) : SupportedStreamConfig :=
  c.with_sample_rate c.max_sample_rate

/-! ## pick_best_format (crates/audio/src/lib.rs lines 98-195) -/

/-- Sample-format priority score, exactly the `match` at lines 113-122:
I32 ↦ 7, F32 ↦ 6, U32 ↦ 5, I16 ↦ 4, U16 ↦ 3, I8 ↦ 2, U8 ↦ 1. -/
def format_score : SampleFormat → Nat
  | .I32 => 7
  | .F32 => 6
  | .U32 => 5
  | .I16 => 4
  | .U16 => 3
  | .I8 => 2
  | .U8 => 1

/-- The score tuple `(sample_rate_match, buffer_size_match, format_match_score,
channel_match_score)` computed for one candidate inside the loop. -/
def config_score (preferred_sample_rate preferred_buffer_size : Option Nat)
    (preferred_sample_format : Option SampleFormat)
    (preferred_channels : Option Nat)
    (config : SupportedStreamConfigRange) : Nat × Nat × Nat × Nat :=
  let fs := format_score config.sample_format
  let sample_rate_match :=
    match preferred_sample_rate with
    | some preferred_rate =>
        if config.min_sample_rate ≤ preferred_rate ∧
           preferred_rate ≤ config.max_sample_rate then 1 else 0
    | none => 1
  let buffer_size_match :=
    match preferred_buffer_size with
    | some preferred_size =>
        match config.buffer_size with
        | .range mn mx => if mn ≤ preferred_size ∧ preferred_size ≤ mx then 1 else 0
        | .unknown => 1
    | none => 1
  let format_match_score :=
    match preferred_sample_format with
    | some preferred_format =>
        if config.sample_format = preferred_format then fs + 100 else fs
    | none => fs
  let channel_match_score :=
    match preferred_channels with
    | some pc => if config.channels = pc then 1 else 0
    | none => 1
  (sample_rate_match, buffer_size_match, format_match_score, channel_match_score)

/-- Rust's derived lexicographic `>` on 4-tuples, used by
`current_score > best_score` at line 176. -/
def scoreGT (a b : Nat × Nat × Nat × Nat) : Prop :=
  b.1 < a.1 ∨ (a.1 = b.1 ∧
    (b.2.1 < a.2.1 ∨ (a.2.1 = b.2.1 ∧
      (b.2.2.1 < a.2.2.1 ∨ (a.2.2.1 = b.2.2.1 ∧ b.2.2.2 < a.2.2.2)))))

instance (a b : Nat × Nat × Nat × Nat) : Decidable (scoreGT a b) := by
  unfold scoreGT; infer_instance

/-- The config the loop body stores on a strict improvement
(lines 179-190): at the preferred rate when supported, else at max rate. -/
def selected_config (preferred_sample_rate : Option Nat)
    (config : SupportedStreamConfigRange) : SupportedStreamConfig :=
  match preferred_sample_rate with
  | some preferred_rate =>
      if config.min_sample_rate ≤ preferred_rate ∧
         preferred_rate ≤ config.max_sample_rate then
        config.with_sample_rate preferred_rate
      else
        config.with_max_sample_rate
  | none => config.with_max_sample_rate

/-- The `for config in configs` loop, carrying `(best_config, best_score)`. -/
def pickLoop (preferred_sample_rate preferred_buffer_size : Option Nat)
    (preferred_sample_format : Option SampleFormat)
    (preferred_channels : Option Nat) :
    List SupportedStreamConfigRange → Option SupportedStreamConfig →
    Nat × Nat × Nat × Nat → Option SupportedStreamConfig
  | [], best_config, _ => best_config
  | config :: rest, best_config, best_score =>
      let current_score := config_score preferred_sample_rate
        preferred_buffer_size preferred_sample_format preferred_channels config
      if scoreGT current_score best_score then
        pickLoop preferred_sample_rate preferred_buffer_size
          preferred_sample_format preferred_channels rest
          (some (selected_config preferred_sample_rate config)) current_score
      else
        pickLoop preferred_sample_rate preferred_buffer_size
          preferred_sample_format preferred_channels rest best_config best_score

/-- Embedding of `pick_best_format`: `best_config = None`,
`best_score = (0, 0, 0, 0)`, then the loop. -/
def pick_best_format (configs : List SupportedStreamConfigRange)
    (preferred_sample_rate preferred_buffer_size : Option Nat)
    (preferred_sample_format : Option SampleFormat)
    (preferred_channels : Option Nat) : Option SupportedStreamConfig :=
  pickLoop preferred_sample_rate preferred_buffer_size preferred_sample_format
    preferred_channels configs none (0, 0, 0, 0)

/-- A candidate range shaped like the unit tests' `make_range`:
2 channels, fixed 44100 Hz, unknown buffer-size range. -/
def testRange (fmt : SampleFormat) : SupportedStreamConfigRange :=
  { channels := 2, min_sample_rate := 44100, max_sample_rate := 44100,
    buffer_size := .unknown, sample_format := fmt }

/-! ## Sync2DArray — the PlanarBlockBuffer (lines 23-94)

The Rust struct owns a `CHANNELS × BUFFER_SIZE` sample array plus a
pointer array `references`, one raw pointer per channel, computed once in
`new` as `data[i].as_mut_ptr()`.  Addresses are modelled abstractly: the
allocation has a base address and channel `i` starts `i * BUFFER_SIZE`
sample slots past it.  `write` (lines 66-70) stores into `data` only. -/

structure Sync2DArray (T : Type) (CHANNELS BUFFER_SIZE : Nat) where
  references : List Nat
  data : List (List T)
  buffer_size : Nat

def Sync2DArray.new (T : Type) (CHANNELS BUFFER_SIZE : Nat) (default : T)
    (buffer_size : Nat) (base : Nat) : Sync2DArray T CHANNELS BUFFER_SIZE :=
  { references := (List.range CHANNELS).map (fun i => base + i * BUFFER_SIZE),
    data := List.replicate CHANNELS (List.replicate BUFFER_SIZE default),
    buffer_size := buffer_size }

def Sync2DArray.write {T : Type} {C B : Nat} (a : Sync2DArray T C B)
    (channel idx : Nat) (sample : T) : Sync2DArray T C B :=
  { a with data := a.data.set channel ((a.data.getD channel []).set idx sample) }

/-! ## The audio engine (lines 197-972)

Stateful `&mut self` methods become state-passing functions.  Methods
returning `Result` are modelled by `OpResult`, whose `error` constructor
still carries the engine (Rust mutations before the early return persist
in `self`); `unwrap` of an error value is the distinguished outcome
`panicked`.  Device handles are identified by their names; the cpal host
environment (device lists, supported and default configs) is a parameter.
Stream construction details (ring buffer, resampler) do not affect any of
the modelled fields and are elided: `run` succeeds whenever the source
passes its four `let ... else` guards. -/

def MAX_BLOCK_SIZE : Nat := 2048

inductive HostId where
  | asio | coreAudio | wasapi
deriving DecidableEq, Repr

def HostId.name : HostId → String
  | .asio => "ASIO"
  | .coreAudio => "CoreAudio"
  | .wasapi => "WASAPI"

inductive Platform where
  | windows | macos | linux
deriving DecidableEq, Repr

/-- cpal host ids are conditionally compiled: ASIO exists only on Windows
and CoreAudio only on macOS. -/
def host_available_on (plat : Platform) : HostId → Bool
  | .asio => plat = Platform.windows
  | .coreAudio => plat = Platform.macos
  | .wasapi => plat = Platform.windows

/-- Back-ends on which capture and playback must share one device. -/
def exclusive_backend (plat : Platform) (h : HostId) : Bool :=
  decide ((plat = Platform.windows ∧ h = HostId.asio) ∨
          (plat = Platform.macos ∧ h = HostId.coreAudio))

inductive BufferSize where
  | default
  | fixed (n : Nat)
deriving DecidableEq, Repr

structure StreamConfig where
  channels : Nat
  sample_rate : Nat
  buffer_size : BufferSize
deriving DecidableEq, Repr

/-- cpal's `From<SupportedStreamConfig> for StreamConfig` (`.into()`):
keeps channels and sample rate, buffer size becomes `Default`. -/
def SupportedStreamConfig.toStreamConfig (c : SupportedStreamConfig) :
    StreamConfig :=
  { channels := c.channels, sample_rate := c.sample_rate,
    buffer_size := .default }

inductive ProcessMode where
  | realtime | prefetch | offline
deriving DecidableEq, Repr

inductive SymbolicSampleSize where
  | sample32 | sample64
deriving DecidableEq, Repr

/-- The value-carrying fields of the VST `ProcessData` struct; the bus and
parameter-change pointers are fixed at engine construction and carry no
per-call information. -/
structure ProcessData where
  process_mode : ProcessMode
  symbolic_sample_size : SymbolicSampleSize
  num_samples : Nat
  num_inputs : Nat
  num_outputs : Nat
deriving DecidableEq, Repr

/-- The `ProcessData` value built in `Default::default` (lines 352-365)
and `update_process_data` (lines 750-763). -/
def mkProcessData (buffer_size : Nat) : ProcessData :=
  { process_mode := .realtime, symbolic_sample_size := .sample32,
    num_samples := buffer_size, num_inputs := 1, num_outputs := 1 }

/-- The cpal environment the engine queries: hosts, device names per host,
supported config ranges and default configs per device name. -/
structure AudioHostEnv where
  hosts : List HostId
  default_host : HostId
  input_device_names : HostId → List String
  output_device_names : HostId → List String
  supported_input_configs : String → List SupportedStreamConfigRange
  supported_output_configs : String → List SupportedStreamConfigRange
  default_input_device : HostId → Option String
  default_output_device : HostId → Option String
  default_input_config : String → Option SupportedStreamConfig
  default_output_config : String → Option SupportedStreamConfig

structure AudioEngine where
  host : HostId
  input_device : Option String
  output_device : Option String
  input_config : Option StreamConfig
  output_config : Option StreamConfig
  input_stream : Option Unit
  output_stream : Option Unit
  process_data : ProcessData
  current_sample_rate : Nat
  current_buffer_size : Nat
deriving DecidableEq, Repr

inductive OpResult where
  | ok (e : AudioEngine)
  | error (e : AudioEngine)
  | panicked
deriving DecidableEq, Repr

/-- The engine state visible after the call: Rust `Result::ok()` keeps the
mutated `self` on `Err` too, while a panic ends the process. -/
def OpResult.toOption : OpResult → Option AudioEngine
  | .ok e => some e
  | .error e => some e
  | .panicked => none

def OpResult.engineD (r : OpResult) (fallback : AudioEngine) : AudioEngine :=
  match r with
  | .ok e => e
  | .error e => e
  | .panicked => fallback

/-- Lines 722-729: take and pause both stream handles. -/
def AudioEngine.stop_streams (e : AudioEngine) : AudioEngine :=
  { e with input_stream := none, output_stream := none }

/-- Lines 732-744: refresh the scalar settings from the configs; the
buffer size is only taken from a `Fixed` config. -/
def AudioEngine.update_current_settings (e : AudioEngine) : AudioEngine :=
  match e.input_config with
  | some config =>
      let e := { e with current_sample_rate := config.sample_rate }
      match config.buffer_size with
      | .fixed size => { e with current_buffer_size := size }
      | .default => e
  | none =>
      match e.output_config with
      | some config =>
          let e := { e with current_sample_rate := config.sample_rate }
          match config.buffer_size with
          | .fixed size => { e with current_buffer_size := size }
          | .default => e
      | none => e

/-- Lines 747-766: rebuild the shared `ProcessData` from the current
buffer size. -/
def AudioEngine.update_process_data (e : AudioEngine) : AudioEngine :=
  { e with process_data := mkProcessData e.current_buffer_size }

/-- `AudioEngine::default` (lines 246-395), restricted to the modelled
fields. -/
def AudioEngine.defaultEngine (env : AudioHostEnv) : AudioEngine :=
  let host := env.default_host
  let input_device := env.default_input_device host
  let output_device := env.default_output_device host
  match input_device, output_device with
  | some input_dev, some output_dev =>
      let input_cfg :=
        (env.default_input_config input_dev).map SupportedStreamConfig.toStreamConfig
      let output_cfg :=
        (env.default_output_config output_dev).map SupportedStreamConfig.toStreamConfig
      let sample_rate := (input_cfg.map (fun c => c.sample_rate)).getD 48000
      let buffer_size :=
        (input_cfg.bind (fun c =>
          match c.buffer_size with
          | .fixed size => some size
          | .default => some 512)).getD 512
      { host := host, input_device := input_device,
        output_device := output_device,
        input_config := input_cfg, output_config := output_cfg,
        input_stream := none, output_stream := none,
        process_data := mkProcessData buffer_size,
        current_sample_rate := sample_rate,
        current_buffer_size := buffer_size }
  | _, _ =>
      { host := host, input_device := input_device,
        output_device := output_device,
        input_config := none, output_config := none,
        input_stream := none, output_stream := none,
        process_data := mkProcessData 512,
        current_sample_rate := 48000, current_buffer_size := 512 }

/-- `select_host` (lines 519-562).  The Windows `if` on ASIO and the macOS
CoreAudio block are conditionally compiled; on other platforms
`output_device` is left untouched, exactly as in the source. -/
def select_host (plat : Platform) (env : AudioHostEnv) (e : AudioEngine)
    (host_name : String) : OpResult :=
  let e := e.stop_streams
  match env.hosts.find? (fun host_id => host_id.name = host_name) with
  | none => .error e
  | some host_id =>
      let e := { e with host := host_id }
      let e := { e with input_device := env.default_input_device host_id }
      let e :=
        if plat = Platform.windows then
          if e.host = HostId.asio then
            { e with output_device := e.input_device }
          else
            { e with output_device := env.default_output_device host_id }
        else e
      let e :=
        if plat = Platform.macos ∧ e.host = HostId.coreAudio then
          { e with input_device := e.output_device,
                   input_config := e.output_config }
        else e
      let e :=
        match e.input_device with
        | some device =>
            { e with
              input_config := (env.default_input_config device).map SupportedStreamConfig.toStreamConfig }
        | none => e
      let e :=
        match e.output_device with
        | some device =>
            { e with
              output_config := (env.default_output_config device).map SupportedStreamConfig.toStreamConfig }
        | none => e
      .ok e.update_current_settings.update_process_data

/-- `select_input` (lines 565-624).  The ASIO branch resets both sides and
recreates the host; the picker is called with the hard-coded preferences
48000 Hz / 256 frames / I32 / 2 channels; `pick_best_format` returning
`None` hits `.unwrap()` on the constructed error — a panic. -/
def select_input (plat : Platform) (env : AudioHostEnv) (e : AudioEngine)
    (device_name : String) : OpResult :=
  let e := e.stop_streams
  let e :=
    if e.host = HostId.asio then
      { e with input_device := none, output_device := none,
               input_config := none, output_config := none }
    else e
  match (env.input_device_names e.host).find? (fun n => n = device_name) with
  | none => .error e
  | some device =>
      match pick_best_format (env.supported_input_configs device)
          (some 48000) (some 256) (some SampleFormat.I32) (some 2) with
      | none => .panicked
      | some best =>
          let e := { e with input_config := some best.toStreamConfig,
                            input_device := some device }
          let e :=
            if plat = Platform.windows ∧ e.host = HostId.asio then
              { e with output_device := e.input_device,
                       output_config := e.input_config }
            else e
          let e :=
            if plat = Platform.macos ∧ e.host = HostId.coreAudio then
              { e with output_device := e.input_device,
                       output_config := e.input_config }
            else e
          .ok e.update_current_settings.update_process_data

/-- `select_output` (lines 627-681), the dual of `select_input`. -/
def select_output (plat : Platform) (env : AudioHostEnv) (e : AudioEngine)
    (device_name : String) : OpResult :=
  let e := e.stop_streams
  let e :=
    if e.host = HostId.asio then
      { e with input_device := none, output_device := none,
               input_config := none, output_config := none }
    else e
  match (env.output_device_names e.host).find? (fun n => n = device_name) with
  | none => .error e
  | some device =>
      match pick_best_format (env.supported_output_configs device)
          (some 48000) (some 256) (some SampleFormat.I32) (some 2) with
      | none => .panicked
      | some best =>
          let e := { e with output_config := some best.toStreamConfig,
                            output_device := some device }
          let e :=
            if plat = Platform.windows ∧ e.host = HostId.asio then
              { e with input_device := e.output_device,
                       input_config := e.output_config }
            else e
          let e :=
            if plat = Platform.macos ∧ e.host = HostId.coreAudio then
              { e with input_device := e.output_device,
                       input_config := e.output_config }
            else e
          .ok e.update_current_settings.update_process_data

/-- `set_sample_rate` (lines 684-700): no stream pause, updates the scalar
and both configs, rebuilds `ProcessData`. -/
def set_sample_rate (e : AudioEngine) (sample_rate : Nat) : OpResult :=
  let e := { e with current_sample_rate := sample_rate }
  let e := { e with input_config :=
      e.input_config.map (fun c : StreamConfig => { c with sample_rate := sample_rate }) }
  let e := { e with output_config :=
      e.output_config.map (fun c : StreamConfig => { c with sample_rate := sample_rate }) }
  .ok e.update_process_data

/-- `set_buffer_size` (lines 703-719): stores the argument verbatim (no
clamp against `MAX_BLOCK_SIZE`), updates both configs, rebuilds
`ProcessData`. -/
def set_buffer_size (e : AudioEngine) (buffer_size : Nat) : OpResult :=
  let e := { e with current_buffer_size := buffer_size }
  let e := { e with input_config :=
      e.input_config.map (fun c : StreamConfig => { c with buffer_size := BufferSize.fixed buffer_size }) }
  let e := { e with output_config :=
      e.output_config.map (fun c : StreamConfig => { c with buffer_size := BufferSize.fixed buffer_size }) }
  .ok e.update_process_data

/-- `run` (lines 769-913), restricted to the modelled fields: the four
`let ... else` guards, then both stream handles are stored. -/
def run (e : AudioEngine) : OpResult :=
  match e.input_device, e.output_device, e.input_config, e.output_config with
  | some _, some _, some _, some _ =>
      .ok { e with input_stream := some (), output_stream := some () }
  | _, _, _, _ => .error e

inductive EngineOp where
  | selectHost (name : String)
  | selectInput (name : String)
  | selectOutput (name : String)
  | setSampleRate (sample_rate : Nat)
  | setBufferSize (buffer_size : Nat)
deriving DecidableEq, Repr

def EngineOp.isSelect : EngineOp → Bool
  | .selectHost _ => true
  | .selectInput _ => true
  | .selectOutput _ => true
  | .setSampleRate _ => false
  | .setBufferSize _ => false

def applyOp (plat : Platform) (env : AudioHostEnv) (op : EngineOp)
    (e : AudioEngine) : OpResult :=
  match op with
  | .selectHost name => select_host plat env e name
  | .selectInput name => select_input plat env e name
  | .selectOutput name => select_output plat env e name
  | .setSampleRate r => set_sample_rate e r
  | .setBufferSize n => set_buffer_size e n

def applyOps (plat : Platform) (env : AudioHostEnv) (e : AudioEngine) :
    List EngineOp → Option AudioEngine
  | [] => some e
  | op :: rest =>
      match (applyOp plat env op e).toOption with
      | some e' => applyOps plat env e' rest
      | none => none

/-! ## The capture callback's plugin chain (lines 816-879)

Each loop iteration calls `plugin.process` with a clone of the shared
`process_data`; the buffer copies between iterations feed audio forward
but the tick every plugin receives is the same value.  The plugin list is
the iteration sequence of the `plugin_modules` map. -/

structure PluginCall where
  plugin : Nat
  tick : ProcessData
deriving DecidableEq, Repr

/-- `block_size = data.len() / channels` (line 819). -/
def callback_block_size (data_len channels : Nat) : Nat := data_len / channels

/-- The trace of `plugin.process` calls one callback invocation makes:
one call per registry entry, in the registry's iteration order, each with
the shared tick.  `data_len` and `channels` determine the block size but
do not enter any tick. -/
def capture_callback_calls (process_data : ProcessData)
    (plugin_iteration : List Nat) (data_len channels : Nat) :
    List PluginCall :=
  plugin_iteration.map (fun id => { plugin := id, tick := process_data })

/-! ## Settings start-up (src-tauri/src/settings.rs lines 8-20)

Each stored field triggers the corresponding engine call; results are
discarded with `.ok()` (errors swallowed, the mutated engine kept) but a
panic inside a call aborts start-up — modelled as `none`. -/

structure AudioSettings where
  host : Option String
  input : Option String
  output : Option String
  buffer_size : Option Nat

def create_audio_engine_from_settings (plat : Platform) (env : AudioHostEnv)
    (s : AudioSettings) : Option AudioEngine :=
  let engine := AudioEngine.defaultEngine env
  (match s.host with
   | some h => (select_host plat env engine h).toOption
   | none => some engine).bind fun engine =>
  (match s.input with
   | some i => (select_input plat env engine i).toOption
   | none => some engine).bind fun engine =>
  (match s.output with
   | some o => (select_output plat env engine o).toOption
   | none => some engine).bind fun engine =>
  (match s.buffer_size with
   | some n => (set_buffer_size engine n).toOption
   | none => some engine)

/-! ## Plugin-path registry (src-tauri/src/plugins.rs lines 3-63)

Filesystem queries are a parameter. -/

structure FsEnv where
  path_exists : String → Bool
  is_dir : String → Bool
  canonicalize : String → Option String

structure PluginRegistry where
  plugin_paths : List String
  plugins : List String
deriving DecidableEq, Repr

/-- `clean_path` (lines 17-26): strip a leading Windows `\\?\` UNC
prefix. -/
def clean_path (canonical_path : String) : String :=
  if "\\\\?\\".isPrefixOf canonical_path then canonical_path.drop 4
  else canonical_path

/-- `add_plugin_path` (lines 28-45). -/
def add_plugin_path (fs : FsEnv) (reg : PluginRegistry) (path : String) :
    Except String PluginRegistry :=
  if fs.path_exists path = false then
    .error ("Path does not exist: " ++ path)
  else if fs.is_dir path = false then
    .error ("Path is not a directory: " ++ path)
  else
    match fs.canonicalize path with
    | none => .error ("Failed to canonicalize path: " ++ path)
    | some canonical_path =>
        .ok { reg with
              plugin_paths := reg.plugin_paths ++ [clean_path canonical_path] }

/-- The validation pipeline of `add_plugin_path` as one function:
`some` of the cleaned canonical path on success. -/
def validate_path (fs : FsEnv) (path : String) : Option String :=
  if fs.path_exists path = false then none
  else if fs.is_dir path = false then none
  else (fs.canonicalize path).map clean_path

/-- Result of `set_plugin_paths`: Rust mutates `self` in place, so the
error case still carries the registry state reached so far. -/
inductive RegResult where
  | ok (reg : PluginRegistry)
  | error (reg : PluginRegistry) (msg : String)
deriving DecidableEq, Repr

def set_plugin_paths_loop (fs : FsEnv) (reg : PluginRegistry) :
    List String → RegResult
  | [] => .ok reg
  | path :: rest =>
      match add_plugin_path fs reg path with
      | .ok reg' => set_plugin_paths_loop fs reg' rest
      | .error msg => .error reg msg

/-- `set_plugin_paths` (lines 51-59): clear, then add each path in order,
returning at the first failure. -/
def set_plugin_paths (fs : FsEnv) (reg : PluginRegistry)
    (paths : List String) : RegResult :=
  set_plugin_paths_loop fs { reg with plugin_paths := [] } paths

/-! ## Concrete environments used by witnesses and counterexamples -/

/-- A single-backend environment with one input and one output device,
both supporting an I32 range. -/
def envT : AudioHostEnv :=
  { hosts := [HostId.wasapi],
    default_host := HostId.wasapi,
    input_device_names := fun _ => ["Mic"],
    output_device_names := fun _ => ["Speakers"],
    supported_input_configs := fun _ => [testRange SampleFormat.I32],
    supported_output_configs := fun _ => [testRange SampleFormat.I32],
    default_input_device := fun _ => some "Mic",
    default_output_device := fun _ => some "Speakers",
    default_input_config :=
      fun _ => some ((testRange SampleFormat.I32).with_max_sample_rate),
    default_output_config :=
      fun _ => some ((testRange SampleFormat.I32).with_max_sample_rate) }

/-- Like `envT` but the input device, though present, reports no
supported input configurations. -/
def envP : AudioHostEnv :=
  { envT with supported_input_configs := fun _ => [] }

/-- An engine currently on the ASIO backend (as reached on Windows). -/
def engineAsio : AudioEngine :=
  { AudioEngine.defaultEngine envT with host := HostId.asio }

/-- A filesystem in which only `/a` is a directory; `/bad` exists but is
not a directory; everything else is absent. -/
def fsW : FsEnv :=
  { path_exists := fun p => p == "/a" || p == "/bad",
    is_dir := fun p => p == "/a",
    canonicalize := fun p => if p == "/a" then some p else none }

/-! ### Order lemmas for the lexicographic score comparison -/

lemma scoreGT_irrefl (a : Nat × Nat × Nat × Nat) : ¬ scoreGT a a := by
  obtain ⟨a1, a2, a3, a4⟩ := a
  simp only [scoreGT]
  omega

lemma scoreGT_trans {a b c : Nat × Nat × Nat × Nat}
    (hab : scoreGT a b) (hbc : scoreGT b c) : scoreGT a c := by
  obtain ⟨a1, a2, a3, a4⟩ := a
  obtain ⟨b1, b2, b3, b4⟩ := b
  obtain ⟨c1, c2, c3, c4⟩ := c
  simp only [scoreGT] at *
  omega

lemma scoreGT_asymm {a b : Nat × Nat × Nat × Nat}
    (hab : scoreGT a b) : ¬ scoreGT b a := by
  obtain ⟨a1, a2, a3, a4⟩ := a
  obtain ⟨b1, b2, b3, b4⟩ := b
  simp only [scoreGT] at *
  omega

lemma scoreGT_of_GT_of_not_GT {a b c : Nat × Nat × Nat × Nat}
    (hab : scoreGT a b) (hcb : ¬ scoreGT c b) : scoreGT a c := by
  obtain ⟨a1, a2, a3, a4⟩ := a
  obtain ⟨b1, b2, b3, b4⟩ := b
  obtain ⟨c1, c2, c3, c4⟩ := c
  simp only [scoreGT] at *
  omega

lemma format_score_pos (f : SampleFormat) : 1 ≤ format_score f := by
  cases f <;> simp [format_score]

lemma config_score_beats_zero (pr pb : Option Nat) (pf : Option SampleFormat)
    (pc : Option Nat) (config : SupportedStreamConfigRange) :
    scoreGT (config_score pr pb pf pc config) (0, 0, 0, 0) := by
  have hfs := format_score_pos config.sample_format
  unfold config_score scoreGT
  rcases pr with _ | r <;> rcases pb with _ | s <;> rcases pf with _ | f <;>
    rcases pc with _ | ch <;>
    simp only [] <;>
    repeat' first
      | omega
      | split

/-! ### Characterization of the selection loop -/

lemma pickLoop_char (pr pb : Option Nat) (pf : Option SampleFormat)
    (pc : Option Nat) :
    ∀ (rest : List SupportedStreamConfigRange)
      (best : Option SupportedStreamConfig) (bs : Nat × Nat × Nat × Nat),
    (pickLoop pr pb pf pc rest best bs = best ∧
      ∀ c ∈ rest, ¬ scoreGT (config_score pr pb pf pc c) bs)
    ∨ (∃ i : Fin rest.length,
        pickLoop pr pb pf pc rest best bs =
          some (selected_config pr (rest.get i)) ∧
        scoreGT (config_score pr pb pf pc (rest.get i)) bs ∧
        (∀ j : Fin rest.length,
          ¬ scoreGT (config_score pr pb pf pc (rest.get j))
            (config_score pr pb pf pc (rest.get i))) ∧
        (∀ j : Fin rest.length, j.val < i.val →
          scoreGT (config_score pr pb pf pc (rest.get i))
            (config_score pr pb pf pc (rest.get j)))) := by
  intro rest
  induction rest with
  | nil =>
      intro best bs
      left
      exact ⟨rfl, by simp⟩
  | cons c rest ih =>
      intro best bs
      by_cases h : scoreGT (config_score pr pb pf pc c) bs
      · have hstep : pickLoop pr pb pf pc (c :: rest) best bs =
            pickLoop pr pb pf pc rest (some (selected_config pr c))
              (config_score pr pb pf pc c) := by
          simp [pickLoop, h]
        rcases ih (some (selected_config pr c)) (config_score pr pb pf pc c) with
          ⟨heq, hall⟩ | ⟨i, heq, hgt, hmax, hfirst⟩
        · right
          refine ⟨⟨0, by simp⟩, ?_, h, ?_, ?_⟩
          · rw [hstep, heq]; rfl
          · intro j
            rcases j with ⟨jv, hj⟩
            cases jv with
            | zero => exact scoreGT_irrefl _
            | succ k =>
                have hk : k < rest.length := by simpa using hj
                have : (c :: rest).get ⟨k + 1, hj⟩ = rest.get ⟨k, hk⟩ := rfl
                rw [this]
                exact hall _ (rest.get_mem _ _)
          · intro j hj
            exact absurd hj (by simp)
        · right
          refine ⟨i.succ, ?_, ?_, ?_, ?_⟩
          · rw [hstep, heq]; rfl
          · exact scoreGT_trans hgt h
          · intro j
            rcases j with ⟨jv, hj⟩
            cases jv with
            | zero => exact scoreGT_asymm hgt
            | succ k =>
                have hk : k < rest.length := by simpa using hj
                exact hmax ⟨k, hk⟩
          · intro j hj
            rcases j with ⟨jv, hjlt⟩
            cases jv with
            | zero => exact hgt
            | succ k =>
                have hk : k < rest.length := by simpa using hjlt
                have hki : k < i.val := by
                  simpa [Fin.succ] using hj
                exact hfirst ⟨k, hk⟩ hki
      · have hstep : pickLoop pr pb pf pc (c :: rest) best bs =
            pickLoop pr pb pf pc rest best bs := by
          simp [pickLoop, h]
        rcases ih best bs with ⟨heq, hall⟩ | ⟨i, heq, hgt, hmax, hfirst⟩
        · left
          refine ⟨by rw [hstep, heq], ?_⟩
          intro d hd
          rcases List.mem_cons.mp hd with rfl | hd
          · exact h
          · exact hall d hd
        · right
          refine ⟨i.succ, ?_, hgt, ?_, ?_⟩
          · rw [hstep, heq]; rfl
          · intro j
            rcases j with ⟨jv, hj⟩
            cases jv with
            | zero =>
                intro hc
                exact h (scoreGT_trans hc hgt)
            | succ k =>
                have hk : k < rest.length := by simpa using hj
                exact hmax ⟨k, hk⟩
          · intro j hj
            rcases j with ⟨jv, hjlt⟩
            cases jv with
            | zero => exact scoreGT_of_GT_of_not_GT hgt h
            | succ k =>
                have hk : k < rest.length := by simpa using hjlt
                have hki : k < i.val := by
                  simpa [Fin.succ] using hj
                exact hfirst ⟨k, hk⟩ hki

lemma config_score_no_prefs (r : SupportedStreamConfigRange) :
    config_score none none none none r =
      (1, 1, format_score r.sample_format, 1) := rfl

lemma le_of_not_scoreGT_mid {x y : Nat}
    (h : ¬ scoreGT (1, 1, x, 1) (1, 1, y, 1)) : x ≤ y := by
  unfold scoreGT at h
  dsimp only at h
  omega

/-- C7: `pick_best_format` returns `none` exactly on the empty candidate
list; otherwise it returns the instantiation of the candidate whose score
tuple (sample-rate match, buffer-size match, format score, channel match)
is lexicographically maximal, and among candidates attaining the maximum
the earliest in input order. -/
theorem c7_pick_best_format_lex_spec
    (configs : List SupportedStreamConfigRange)
    (pr pb : Option Nat) (pf : Option SampleFormat) (pc : Option Nat) :
    (pick_best_format configs pr pb pf pc = none ↔ configs = []) ∧
    (∀ c, pick_best_format configs pr pb pf pc = some c →
      ∃ i : Fin configs.length,
        c = selected_config pr (configs.get i) ∧
        (∀ j : Fin configs.length,
          ¬ scoreGT (config_score pr pb pf pc (configs.get j))
            (config_score pr pb pf pc (configs.get i))) ∧
        (∀ j : Fin configs.length, j.val < i.val →
          scoreGT (config_score pr pb pf pc (configs.get i))
            (config_score pr pb pf pc (configs.get j)))) := by
  have hchar := pickLoop_char pr pb pf pc configs none (0, 0, 0, 0)
  rcases hchar with ⟨heq, hall⟩ | ⟨i, heq, _hgt, hmax, hfirst⟩
  · have hempty : configs = [] := by
      cases configs with
      | nil => rfl
      | cons c rest =>
          exact absurd (config_score_beats_zero pr pb pf pc c)
            (hall c (List.mem_cons_self c rest))
    subst hempty
    refine ⟨by simp [pick_best_format, pickLoop], ?_⟩
    intro c hc
    simp [pick_best_format, pickLoop] at hc
  · refine ⟨⟨fun hnone => ?_, fun hnil => ?_⟩, ?_⟩
    · rw [pick_best_format] at hnone
      rw [heq] at hnone
      exact Option.noConfusion hnone
    · subst hnil
      exact absurd i.isLt (by simp)
    · intro c hc
      rw [pick_best_format, heq] at hc
      exact ⟨i, (Option.some.inj hc).symm, hmax, hfirst⟩

theorem c7_pick_best_format_lex_spec_witness :
    ∃ i : Fin ([testRange SampleFormat.I16,
                testRange SampleFormat.F32].length),
      ({ channels := 2, sample_rate := 44100,
         buffer_size := SupportedBufferSize.unknown,
         sample_format := SampleFormat.F32 } : SupportedStreamConfig) =
        selected_config none
          ([testRange SampleFormat.I16, testRange SampleFormat.F32].get i) ∧
      (∀ j : Fin ([testRange SampleFormat.I16,
                   testRange SampleFormat.F32].length),
        ¬ scoreGT
          (config_score none none none none
            ([testRange SampleFormat.I16, testRange SampleFormat.F32].get j))
          (config_score none none none none
            ([testRange SampleFormat.I16, testRange SampleFormat.F32].get i))) ∧
      (∀ j : Fin ([testRange SampleFormat.I16,
                   testRange SampleFormat.F32].length), j.val < i.val →
        scoreGT
          (config_score none none none none
            ([testRange SampleFormat.I16, testRange SampleFormat.F32].get i))
          (config_score none none none none
            ([testRange SampleFormat.I16, testRange SampleFormat.F32].get j))) :=
  (c7_pick_best_format_lex_spec
    [testRange SampleFormat.I16, testRange SampleFormat.F32]
    none none none none).2 _ (by decide)

/-- C1 counterexample: with no preferences and both an F32 and an I32
candidate agreeing on every other criterion, `pick_best_format` returns
the I32 candidate (the code scores I32 at 7 and F32 at 6), so the claimed
F32-first ranking fails. -/
theorem c1_claim_counterexample :
    pick_best_format [testRange SampleFormat.F32, testRange SampleFormat.I32]
        none none none none =
      some { channels := 2, sample_rate := 44100,
             buffer_size := SupportedBufferSize.unknown,
             sample_format := SampleFormat.I32 } ∧
    SampleFormat.I32 ≠ SampleFormat.F32 := ⟨by decide, by decide⟩

/-- C1 (amended): when no preferences are given, the sample format of the
candidate returned by `pick_best_format` is the format of one of the input
candidates and is maximal under the code's ranking
I32 > F32 > U32 > I16 > U16 > I8 > U8 (`format_score`). -/
theorem c1_no_prefs_format_ranking
    (configs : List SupportedStreamConfigRange) (c : SupportedStreamConfig)
    (h : pick_best_format configs none none none none = some c) :
    (∃ r ∈ configs, r.sample_format = c.sample_format) ∧
    ∀ r ∈ configs, format_score r.sample_format ≤ format_score c.sample_format := by
  have hchar := pickLoop_char none none none none configs none (0, 0, 0, 0)
  rcases hchar with ⟨heq, _⟩ | ⟨i, heq, _, hmax, _⟩
  · rw [pick_best_format] at h
    rw [heq] at h
    exact Option.noConfusion h
  · rw [pick_best_format, heq] at h
    have hc := Option.some.inj h
    have hfmt : c.sample_format = (configs.get i).sample_format := by
      rw [← hc]; rfl
    constructor
    · exact ⟨configs.get i, configs.get_mem _ _, hfmt.symm⟩
    · intro r hr
      obtain ⟨j, hj⟩ := List.mem_iff_get.mp hr
      have hmj := hmax j
      rw [config_score_no_prefs, config_score_no_prefs] at hmj
      rw [hfmt, ← hj]
      exact le_of_not_scoreGT_mid hmj

theorem c1_no_prefs_format_ranking_witness :
    (∃ r ∈ [testRange SampleFormat.F32, testRange SampleFormat.I32],
      r.sample_format = ((testRange SampleFormat.I32).with_max_sample_rate).sample_format) ∧
    ∀ r ∈ [testRange SampleFormat.F32, testRange SampleFormat.I32],
      format_score r.sample_format ≤
        format_score ((testRange SampleFormat.I32).with_max_sample_rate).sample_format :=
  c1_no_prefs_format_ranking
    [testRange SampleFormat.F32, testRange SampleFormat.I32] _ (by decide)

/-! ## C9: pointer stability of the planar buffer -/

/-- C9: the channel-pointer array `references` of a `Sync2DArray` is
computed at construction (channel `i` points `i * BUFFER_SIZE` slots past
the allocation base) and is unchanged by any finite sequence of
`write (channel, idx, sample)` calls. -/
theorem c9_references_stable (T : Type) (C B : Nat) (default : T)
    (buffer_size base : Nat) (ops : List (Nat × Nat × T)) :
    ((Sync2DArray.new T C B default buffer_size base).references =
      (List.range C).map (fun i => base + i * B)) ∧
    ∀ a : Sync2DArray T C B,
      (ops.foldl (fun acc op => acc.write op.1 op.2.1 op.2.2) a).references =
        a.references := by
  refine ⟨rfl, ?_⟩
  induction ops with
  | nil => intro a; rfl
  | cons op rest ih => intro a; exact ih (a.write op.1 op.2.1 op.2.2)

/-! ## C2 and C6: the capture callback's plugin chain -/

/-- C2: within one block the capture callback makes exactly one
`plugin.process` call per registry entry, following the registry's
iteration sequence: the list of called plugins equals that sequence.
The registry is a hash map, so this iteration sequence — not the
`load_plugin` insertion order — determines the chain. -/
theorem c2_chain_follows_iteration_order (pd : ProcessData)
    (registry_iteration : List Nat) (data_len channels : Nat) :
    (capture_callback_calls pd registry_iteration data_len channels).map
      PluginCall.plugin = registry_iteration := by
  induction registry_iteration with
  | nil => rfl
  | cons a l ih => simpa [capture_callback_calls] using ih

/-- C6 counterexample: an invocation delivering 100 interleaved samples
on 2 channels has block size 50, yet the plugin receives the tick built
from the configured buffer size 512. -/
theorem c6_num_samples_counterexample :
    (capture_callback_calls (mkProcessData 512) [0] 100 2).map
      (fun c => c.tick.num_samples) = [512] ∧
    callback_block_size 100 2 = 50 ∧ (512 : Nat) ≠ 50 := by decide

/-- C6 (amended): every `plugin.process` call of one invocation receives
the shared tick, whose `num_samples` equals the engine's
`current_buffer_size` as of the last `update_process_data` — not the
invocation's block size. -/
theorem c6_tick_num_samples (pd : ProcessData) (plugins : List Nat)
    (data_len channels : Nat) :
    (∀ c ∈ capture_callback_calls pd plugins data_len channels,
      c.tick.num_samples = pd.num_samples) ∧
    ∀ e : AudioEngine,
      e.update_process_data.process_data.num_samples =
        e.current_buffer_size := by
  constructor
  · intro c hc
    obtain ⟨id, _, rfl⟩ := List.mem_map.mp hc
    rfl
  · intro e
    rfl

theorem c6_tick_num_samples_witness :
    ({ plugin := 7, tick := mkProcessData 512 } : PluginCall).tick.num_samples =
      (mkProcessData 512).num_samples :=
  (c6_tick_num_samples (mkProcessData 512) [7] 1024 2).1 _ (by decide)

/-! ## C4: no clamp in set_buffer_size -/

/-- C4: `set_buffer_size` stores its argument verbatim, so
`set_buffer_size 4096` leaves `current_buffer_size = 4096`, which exceeds
`MAX_BLOCK_SIZE = 2048`; the claimed invariant is not enforced. -/
theorem c4_set_buffer_size_unclamped :
    MAX_BLOCK_SIZE = 2048 ∧
    (∀ (e : AudioEngine) (n : Nat),
      (set_buffer_size e n).toOption.map AudioEngine.current_buffer_size =
        some n) ∧
    (set_buffer_size (AudioEngine.defaultEngine envT) 4096).toOption.map
        AudioEngine.current_buffer_size = some 4096 ∧
    MAX_BLOCK_SIZE < 4096 :=
  ⟨rfl, fun _ _ => rfl, by decide, by decide⟩

/-! ## C5: start-up from the settings bag can panic -/

/-- C5: starting the engine from a settings bag naming a host, an input
device, an output device and a buffer size aborts with a panic when the
named input device exists but reports no supported input configurations:
`select_input` unwraps the error constructed from `pick_best_format`
returning `None`. -/
theorem c5_settings_panic_on_configless_device :
    create_audio_engine_from_settings Platform.windows envP
      { host := some "WASAPI", input := some "Mic", output := some "Speakers",
        buffer_size := some 512 } = none := by decide

/-! ## C10: set_plugin_paths is not atomic on error -/

lemma add_plugin_path_of_validate_some (fs : FsEnv) (reg : PluginRegistry)
    (path : String) (c : String) (h : validate_path fs path = some c) :
    add_plugin_path fs reg path =
      .ok { reg with plugin_paths := reg.plugin_paths ++ [c] } := by
  unfold validate_path at h
  split at h
  · exact absurd h (by simp)
  · split at h
    · exact absurd h (by simp)
    · rename_i h1 h2
      obtain ⟨canon, hcanon, hc⟩ := Option.map_eq_some'.mp h
      subst hc
      unfold add_plugin_path
      rw [if_neg h1, if_neg h2, hcanon]

lemma add_plugin_path_of_validate_none (fs : FsEnv) (reg : PluginRegistry)
    (path : String) (h : validate_path fs path = none) :
    ∃ msg, add_plugin_path fs reg path = .error msg := by
  unfold validate_path at h
  unfold add_plugin_path
  split at h
  · rename_i h1
    exact ⟨_, by rw [if_pos h1]⟩
  · split at h
    · rename_i h1 h2
      exact ⟨_, by rw [if_neg h1, if_pos h2]⟩
    · rename_i h1 h2
      have hc : fs.canonicalize path = none := Option.map_eq_none'.mp h
      exact ⟨_, by rw [if_neg h1, if_neg h2, hc]⟩

lemma set_plugin_paths_loop_fail (fs : FsEnv) (p : String)
    (post : List String) (hfail : validate_path fs p = none) :
    ∀ pre : List String, (∀ q ∈ pre, (validate_path fs q).isSome) →
    ∀ reg : PluginRegistry,
    ∃ msg r, set_plugin_paths_loop fs reg (pre ++ p :: post) =
        RegResult.error r msg ∧
      r.plugin_paths = reg.plugin_paths ++ pre.filterMap (validate_path fs) := by
  intro pre
  induction pre with
  | nil =>
      intro _ reg
      obtain ⟨msg, hmsg⟩ := add_plugin_path_of_validate_none fs reg p hfail
      refine ⟨msg, reg, ?_, by simp⟩
      simp [set_plugin_paths_loop, hmsg]
  | cons q pre ih =>
      intro hpre reg
      have hq : (validate_path fs q).isSome := hpre q (by simp)
      obtain ⟨c, hc⟩ := Option.isSome_iff_exists.mp hq
      have hadd := add_plugin_path_of_validate_some fs reg q c hc
      obtain ⟨msg, r, hr, hpaths⟩ :=
        ih (fun x hx => hpre x (by simp [hx]))
          { reg with plugin_paths := reg.plugin_paths ++ [c] }
      refine ⟨msg, r, ?_, ?_⟩
      · simpa [set_plugin_paths_loop, hadd] using hr
      · rw [hpaths]
        simp [List.filterMap_cons, hc, List.append_assoc]

/-- C10: `set_plugin_paths` clears the stored paths first and then adds
the new paths one by one; when a path fails validation the call returns
an error, the old paths are already gone, and exactly the cleaned
canonical forms of the new paths before the failing one are stored. -/
theorem c10_set_plugin_paths_not_atomic (fs : FsEnv) (reg : PluginRegistry)
    (pre : List String) (p : String) (post : List String)
    (hpre : ∀ q ∈ pre, (validate_path fs q).isSome)
    (hfail : validate_path fs p = none) :
    ∃ msg r, set_plugin_paths fs reg (pre ++ p :: post) =
        RegResult.error r msg ∧
      r.plugin_paths = pre.filterMap (validate_path fs) := by
  obtain ⟨msg, r, hr, hpaths⟩ :=
    set_plugin_paths_loop_fail fs p post hfail pre hpre
      { reg with plugin_paths := [] }
  exact ⟨msg, r, hr, by simpa using hpaths⟩

theorem c10_set_plugin_paths_not_atomic_witness :
    ∃ msg r,
      set_plugin_paths fsW { plugin_paths := ["/old"], plugins := [] }
          (["/a"] ++ "/bad" :: ["/c"]) = RegResult.error r msg ∧
      r.plugin_paths = ["/a"].filterMap (validate_path fsW) :=
  c10_set_plugin_paths_not_atomic fsW
    { plugin_paths := ["/old"], plugins := [] }
    ["/a"] "/bad" ["/c"] (by decide) (by decide)

/-! ## C3: stream handles across configuration operations -/

lemma update_chain_streams (e : AudioEngine) :
    e.update_current_settings.update_process_data.input_stream =
      e.input_stream ∧
    e.update_current_settings.update_process_data.output_stream =
      e.output_stream := by
  rcases e with ⟨host, idev, odev, icfg, ocfg, istr, ostr, pd, sr, bs⟩
  rcases icfg with _ | ⟨ch, r, b⟩
  · rcases ocfg with _ | ⟨ch2, r2, b2⟩
    · exact ⟨rfl, rfl⟩
    · rcases b2 with _ | n <;> exact ⟨rfl, rfl⟩
  · rcases b with _ | n <;> exact ⟨rfl, rfl⟩

lemma select_host_streams_none (plat : Platform) (env : AudioHostEnv)
    (e : AudioEngine) (name : String) (e' : AudioEngine)
    (h : (select_host plat env e name).toOption = some e') :
    e'.input_stream = none ∧ e'.output_stream = none := by
  unfold select_host at h
  dsimp only at h
  repeat' split at h
  all_goals simp only [OpResult.toOption, Option.some.injEq] at h
  all_goals try cases h
  all_goals
    first
    | exact ⟨rfl, rfl⟩
    | exact ⟨(update_chain_streams _).1.trans rfl,
             (update_chain_streams _).2.trans rfl⟩

lemma select_input_streams_none (plat : Platform) (env : AudioHostEnv)
    (e : AudioEngine) (name : String) (e' : AudioEngine)
    (h : (select_input plat env e name).toOption = some e') :
    e'.input_stream = none ∧ e'.output_stream = none := by
  unfold select_input at h
  dsimp only at h
  repeat' split at h
  all_goals simp only [OpResult.toOption, Option.some.injEq] at h
  all_goals try cases h
  all_goals
    first
    | exact ⟨rfl, rfl⟩
    | exact ⟨(update_chain_streams _).1.trans rfl,
             (update_chain_streams _).2.trans rfl⟩

lemma select_output_streams_none (plat : Platform) (env : AudioHostEnv)
    (e : AudioEngine) (name : String) (e' : AudioEngine)
    (h : (select_output plat env e name).toOption = some e') :
    e'.input_stream = none ∧ e'.output_stream = none := by
  unfold select_output at h
  dsimp only at h
  repeat' split at h
  all_goals simp only [OpResult.toOption, Option.some.injEq] at h
  all_goals try cases h
  all_goals
    first
    | exact ⟨rfl, rfl⟩
    | exact ⟨(update_chain_streams _).1.trans rfl,
             (update_chain_streams _).2.trans rfl⟩

lemma set_sample_rate_streams_eq (e : AudioEngine) (r : Nat)
    (e' : AudioEngine) (h : (set_sample_rate e r).toOption = some e') :
    e'.input_stream = e.input_stream ∧ e'.output_stream = e.output_stream := by
  unfold set_sample_rate at h
  dsimp only at h
  simp only [OpResult.toOption, Option.some.injEq] at h
  subst h
  exact ⟨rfl, rfl⟩

lemma set_buffer_size_streams_eq (e : AudioEngine) (n : Nat)
    (e' : AudioEngine) (h : (set_buffer_size e n).toOption = some e') :
    e'.input_stream = e.input_stream ∧ e'.output_stream = e.output_stream := by
  unfold set_buffer_size at h
  dsimp only at h
  simp only [OpResult.toOption, Option.some.injEq] at h
  subst h
  exact ⟨rfl, rfl⟩

lemma applyOp_select_streams_none (plat : Platform) (env : AudioHostEnv)
    (op : EngineOp) (e e' : AudioEngine) (hsel : op.isSelect = true)
    (h : (applyOp plat env op e).toOption = some e') :
    e'.input_stream = none ∧ e'.output_stream = none := by
  cases op with
  | selectHost name => exact select_host_streams_none plat env e name e' h
  | selectInput name => exact select_input_streams_none plat env e name e' h
  | selectOutput name => exact select_output_streams_none plat env e name e' h
  | setSampleRate r => simp [EngineOp.isSelect] at hsel
  | setBufferSize n => simp [EngineOp.isSelect] at hsel

lemma applyOp_set_streams_eq (plat : Platform) (env : AudioHostEnv)
    (op : EngineOp) (e e' : AudioEngine) (hsel : op.isSelect = false)
    (h : (applyOp plat env op e).toOption = some e') :
    e'.input_stream = e.input_stream ∧ e'.output_stream = e.output_stream := by
  cases op with
  | selectHost name => simp [EngineOp.isSelect] at hsel
  | selectInput name => simp [EngineOp.isSelect] at hsel
  | selectOutput name => simp [EngineOp.isSelect] at hsel
  | setSampleRate r => exact set_sample_rate_streams_eq e r e' h
  | setBufferSize n => exact set_buffer_size_streams_eq e n e' h

lemma applyOps_streams_none (plat : Platform) (env : AudioHostEnv) :
    ∀ (ops : List EngineOp) (e e' : AudioEngine),
      e.input_stream = none → e.output_stream = none →
      applyOps plat env e ops = some e' →
      e'.input_stream = none ∧ e'.output_stream = none := by
  intro ops
  induction ops with
  | nil =>
      intro e e' h1 h2 h
      simp only [applyOps, Option.some.injEq] at h
      subst h
      exact ⟨h1, h2⟩
  | cons op rest ih =>
      intro e e' h1 h2 h
      unfold applyOps at h
      rcases hmid : (applyOp plat env op e).toOption with _ | emid
      · simp only [hmid] at h
        cases h
      · simp only [hmid] at h
        by_cases hb : op.isSelect = true
        · obtain ⟨hi, ho⟩ := applyOp_select_streams_none plat env op e emid hb hmid
          exact ih emid e' hi ho h
        · have hb' : op.isSelect = false := by
            revert hb; cases op.isSelect <;> simp
          obtain ⟨hi, ho⟩ := applyOp_set_streams_eq plat env op e emid hb' hmid
          rw [h1] at hi
          rw [h2] at ho
          exact ih emid e' hi ho h

/-- C3 counterexample: `set_sample_rate` does not stop the streams, so
after `run()` followed by `set_sample_rate 44100` both stream handles are
still `Some`, contradicting the claimed "both are None after any set_*
operation". -/
theorem c3_set_op_leaves_streams_running :
    ((run (AudioEngine.defaultEngine envT)).toOption.bind
        (fun e1 => (set_sample_rate e1 44100).toOption)).map
      (fun e => (e.input_stream.isSome, e.output_stream.isSome)) =
      some (true, true) := by decide

/-- C3 (amended): every select_host/select_input/select_output leaves both
stream handles `None` (on success and on failure), and they stay `None`
across any further select/set operations; set_sample_rate and
set_buffer_size leave the stream fields exactly as they were, so
`input_stream.is_some() == output_stream.is_some()` is preserved by every
operation, but the set operations do not force the handles to `None`. -/
theorem c3_streams_invariant (plat : Platform) (env : AudioHostEnv) :
    (∀ (op : EngineOp) (e e' : AudioEngine), op.isSelect = true →
      (applyOp plat env op e).toOption = some e' →
      e'.input_stream = none ∧ e'.output_stream = none) ∧
    (∀ (op : EngineOp) (e e' : AudioEngine), op.isSelect = false →
      (applyOp plat env op e).toOption = some e' →
      e'.input_stream = e.input_stream ∧ e'.output_stream = e.output_stream) ∧
    (∀ (op : EngineOp) (ops : List EngineOp) (e e' : AudioEngine),
      op.isSelect = true →
      applyOps plat env e (op :: ops) = some e' →
      e'.input_stream = none ∧ e'.output_stream = none) := by
  refine ⟨fun op e e' => applyOp_select_streams_none plat env op e e',
          fun op e e' => applyOp_set_streams_eq plat env op e e', ?_⟩
  intro op ops e e' hsel h
  unfold applyOps at h
  rcases hmid : (applyOp plat env op e).toOption with _ | emid
  · simp only [hmid] at h
    cases h
  · simp only [hmid] at h
    obtain ⟨hi, ho⟩ := applyOp_select_streams_none plat env op e emid hsel hmid
    exact applyOps_streams_none plat env ops emid e' hi ho h

theorem c3_streams_invariant_witness :
    ((applyOp Platform.windows envT (EngineOp.selectInput "Mic")
        (AudioEngine.defaultEngine envT)).engineD
          (AudioEngine.defaultEngine envT)).input_stream = none ∧
    ((applyOp Platform.windows envT (EngineOp.selectInput "Mic")
        (AudioEngine.defaultEngine envT)).engineD
          (AudioEngine.defaultEngine envT)).output_stream = none :=
  (c3_streams_invariant Platform.windows envT).1
    (EngineOp.selectInput "Mic") (AudioEngine.defaultEngine envT) _
    (by decide) (by decide)

/-! ## C8: back-end exclusivity in select_input / select_output -/

lemma upd_frame (e : AudioEngine) :
    (e.update_current_settings.update_process_data.input_device =
      e.input_device) ∧
    (e.update_current_settings.update_process_data.output_device =
      e.output_device) ∧
    (e.update_current_settings.update_process_data.input_config =
      e.input_config) ∧
    (e.update_current_settings.update_process_data.output_config =
      e.output_config) := by
  rcases e with ⟨host, idev, odev, icfg, ocfg, istr, ostr, pd, sr, bs⟩
  rcases icfg with _ | ⟨ch, r, b⟩
  · rcases ocfg with _ | ⟨ch2, r2, b2⟩
    · exact ⟨rfl, rfl, rfl, rfl⟩
    · rcases b2 with _ | n <;> exact ⟨rfl, rfl, rfl, rfl⟩
  · rcases b with _ | n <;> exact ⟨rfl, rfl, rfl, rfl⟩

lemma upd_input_device (e : AudioEngine) :
    e.update_current_settings.update_process_data.input_device =
      e.input_device := (upd_frame e).1

lemma upd_output_device (e : AudioEngine) :
    e.update_current_settings.update_process_data.output_device =
      e.output_device := (upd_frame e).2.1

lemma upd_input_config (e : AudioEngine) :
    e.update_current_settings.update_process_data.input_config =
      e.input_config := (upd_frame e).2.2.1

lemma upd_output_config (e : AudioEngine) :
    e.update_current_settings.update_process_data.output_config =
      e.output_config := (upd_frame e).2.2.2

/-- C8: on an exclusive back-end (ASIO on Windows, CoreAudio on macOS) a
successful `select_input` leaves `output_device`/`output_config` equal to
the newly selected input device and config, and symmetrically for
`select_output`; on a non-exclusive back-end the other side's device and
config are unchanged.  The hypothesis `host_available_on` states cpal's
conditional compilation: ASIO exists only on Windows, CoreAudio only on
macOS. -/
theorem c8_select_exclusivity (plat : Platform) (env : AudioHostEnv)
    (e e' : AudioEngine) (name : String)
    (hvalid : host_available_on plat e.host = true) :
    (select_input plat env e name = OpResult.ok e' →
      (exclusive_backend plat e.host = true →
        e'.output_device = e'.input_device ∧
        e'.output_config = e'.input_config) ∧
      (exclusive_backend plat e.host = false →
        e'.output_device = e.output_device ∧
        e'.output_config = e.output_config)) ∧
    (select_output plat env e name = OpResult.ok e' →
      (exclusive_backend plat e.host = true →
        e'.input_device = e'.output_device ∧
        e'.input_config = e'.output_config) ∧
      (exclusive_backend plat e.host = false →
        e'.input_device = e.input_device ∧
        e'.input_config = e.input_config)) := by
  obtain ⟨host, idev, odev, icfg, ocfg, istr, ostr, pd, sr, bs⟩ := e
  cases host
  · cases plat
    · -- ASIO on Windows: exclusive
      refine ⟨fun h => ?_, fun h => ?_⟩
      · unfold select_input at h
        simp [AudioEngine.stop_streams] at h
        repeat' split at h
        all_goals try cases h
        all_goals refine ⟨fun hex => ?_, fun hex => ?_⟩
        all_goals
          first
          | exact hex.elim
          | (simp [exclusive_backend] at hex
             done)
          | (rw [(upd_frame _).2.1, (upd_frame _).1,
                 (upd_frame _).2.2.2, (upd_frame _).2.2.1]
             try exact ⟨rfl, rfl⟩)
          | (rw [(upd_frame _).2.1, (upd_frame _).2.2.2]
             try exact ⟨rfl, rfl⟩)
          | (rw [(upd_frame _).1, (upd_frame _).2.2.1]
             try exact ⟨rfl, rfl⟩)
      · unfold select_output at h
        simp [AudioEngine.stop_streams] at h
        repeat' split at h
        all_goals try cases h
        all_goals refine ⟨fun hex => ?_, fun hex => ?_⟩
        all_goals
          first
          | exact hex.elim
          | (simp [exclusive_backend] at hex
             done)
          | (rw [(upd_frame _).2.1, (upd_frame _).1,
                 (upd_frame _).2.2.2, (upd_frame _).2.2.1]
             try exact ⟨rfl, rfl⟩)
          | (rw [(upd_frame _).2.1, (upd_frame _).2.2.2]
             try exact ⟨rfl, rfl⟩)
          | (rw [(upd_frame _).1, (upd_frame _).2.2.1]
             try exact ⟨rfl, rfl⟩)
    · simp [host_available_on] at hvalid
    · simp [host_available_on] at hvalid
  · cases plat
    · simp [host_available_on] at hvalid
    · -- CoreAudio on macOS: exclusive
      refine ⟨fun h => ?_, fun h => ?_⟩
      · unfold select_input at h
        simp [AudioEngine.stop_streams] at h
        repeat' split at h
        all_goals try cases h
        all_goals refine ⟨fun hex => ?_, fun hex => ?_⟩
        all_goals
          first
          | exact hex.elim
          | (simp [exclusive_backend] at hex
             done)
          | (rw [(upd_frame _).2.1, (upd_frame _).1,
                 (upd_frame _).2.2.2, (upd_frame _).2.2.1]
             try exact ⟨rfl, rfl⟩)
          | (rw [(upd_frame _).2.1, (upd_frame _).2.2.2]
             try exact ⟨rfl, rfl⟩)
          | (rw [(upd_frame _).1, (upd_frame _).2.2.1]
             try exact ⟨rfl, rfl⟩)
      · unfold select_output at h
        simp [AudioEngine.stop_streams] at h
        repeat' split at h
        all_goals try cases h
        all_goals refine ⟨fun hex => ?_, fun hex => ?_⟩
        all_goals
          first
          | exact hex.elim
          | (simp [exclusive_backend] at hex
             done)
          | (rw [(upd_frame _).2.1, (upd_frame _).1,
                 (upd_frame _).2.2.2, (upd_frame _).2.2.1]
             try exact ⟨rfl, rfl⟩)
          | (rw [(upd_frame _).2.1, (upd_frame _).2.2.2]
             try exact ⟨rfl, rfl⟩)
          | (rw [(upd_frame _).1, (upd_frame _).2.2.1]
             try exact ⟨rfl, rfl⟩)
    · simp [host_available_on] at hvalid
  · cases plat
    · -- WASAPI on Windows: not exclusive
      refine ⟨fun h => ?_, fun h => ?_⟩
      · unfold select_input at h
        simp [AudioEngine.stop_streams] at h
        repeat' split at h
        all_goals try cases h
        all_goals refine ⟨fun hex => ?_, fun hex => ?_⟩
        all_goals
          first
          | exact hex.elim
          | (simp [exclusive_backend] at hex
             done)
          | (rw [(upd_frame _).2.1, (upd_frame _).1,
                 (upd_frame _).2.2.2, (upd_frame _).2.2.1]
             try exact ⟨rfl, rfl⟩)
          | (rw [(upd_frame _).2.1, (upd_frame _).2.2.2]
             try exact ⟨rfl, rfl⟩)
          | (rw [(upd_frame _).1, (upd_frame _).2.2.1]
             try exact ⟨rfl, rfl⟩)
      · unfold select_output at h
        simp [AudioEngine.stop_streams] at h
        repeat' split at h
        all_goals try cases h
        all_goals refine ⟨fun hex => ?_, fun hex => ?_⟩
        all_goals
          first
          | exact hex.elim
          | (simp [exclusive_backend] at hex
             done)
          | (rw [(upd_frame _).2.1, (upd_frame _).1,
                 (upd_frame _).2.2.2, (upd_frame _).2.2.1]
             try exact ⟨rfl, rfl⟩)
          | (rw [(upd_frame _).2.1, (upd_frame _).2.2.2]
             try exact ⟨rfl, rfl⟩)
          | (rw [(upd_frame _).1, (upd_frame _).2.2.1]
             try exact ⟨rfl, rfl⟩)
    · simp [host_available_on] at hvalid
    · simp [host_available_on] at hvalid

theorem c8_select_exclusivity_witness :
    ((select_input Platform.windows envT engineAsio "Mic").engineD
        engineAsio).output_device =
      ((select_input Platform.windows envT engineAsio "Mic").engineD
        engineAsio).input_device ∧
    ((select_input Platform.windows envT engineAsio "Mic").engineD
        engineAsio).output_config =
      ((select_input Platform.windows envT engineAsio "Mic").engineD
        engineAsio).input_config :=
  ((c8_select_exclusivity Platform.windows envT engineAsio _ "Mic"
      (by decide)).1 (by decide)).1 (by decide)

end Sona
